import Mathlib

/-!
Shallow embedding of the preptrack repository: the relational data model and
row-level-security (RLS) semantics from the SQL migration, the client CRUD
calls and in-memory aggregations from the page modules, and the AI-suggestion
relay handler. User ids and row ids are modelled as natural numbers; the
authenticated identity (auth.uid()) is an Option Nat, none when no session
exists. Timestamps are modelled as integers (milliseconds since epoch).
-/

namespace PrepTrack

/-! ### Data model (supabase migration 20260201133614) -/

/-- Row of public.resources. -/
structure ResourceRow where
  id : Nat
  user_id : Nat
  title : String
  url : Option String
  category : String
  resource_type : String
  notes : Option String
  is_completed : Bool
deriving DecidableEq, Repr

/-- Row of public.roadmap_items. -/
structure RoadmapItemRow where
  id : Nat
  user_id : Nat
  title : String
  description : Option String
  target_date : Option Int
  status : String
  priority : String
  week_number : Option Nat
deriving DecidableEq, Repr

/-- Row of public.applications. -/
structure ApplicationRow where
  id : Nat
  user_id : Nat
  company : String
  role : String
  status : String
  applied_date : Int
  notes : Option String
  job_url : Option String
  salary_range : Option String
  location : Option String
deriving DecidableEq, Repr

/-- Row of public.interviews; application_id is a weak reference to
public.applications declared ON DELETE SET NULL, and updated_at is
refreshed by the BEFORE UPDATE trigger update_interviews_updated_at on
every update of the row, cascaded ones included. -/
structure InterviewRow where
  id : Nat
  user_id : Nat
  application_id : Option Nat
  company : String
  role : String
  interview_date : Int
  interview_type : String
  outcome : Option String
  notes : Option String
  feedback : Option String
  created_at : Int
  updated_at : Int
deriving DecidableEq, Repr

/-- Row of public.contacts. -/
structure ContactRow where
  id : Nat
  user_id : Nat
  name : String
  company : String
  role : Option String
  email : Option String
  phone : Option String
  linkedin_url : Option String
  notes : Option String
deriving DecidableEq, Repr

/-- Row of public.practice_tests. -/
structure PracticeTestRow where
  id : Nat
  user_id : Nat
  title : String
  category : String
  total_questions : Int
  correct_answers : Int
  time_taken_seconds : Option Int
  completed_at : Option Int
deriving DecidableEq, Repr

/-- The owned tables of the store (past_questions is read-only and unowned,
so it is kept apart from the mutation model). -/
structure Db where
  resources : List ResourceRow
  roadmap_items : List RoadmapItemRow
  applications : List ApplicationRow
  interviews : List InterviewRow
  contacts : List ContactRow
  practice_tests : List PracticeTestRow
deriving DecidableEq, Repr

/-! ### Row-level security semantics

Every owned table in the migration carries the same four policies:
SELECT USING (auth.uid() = user_id), INSERT WITH CHECK (auth.uid() = user_id),
UPDATE USING (auth.uid() = user_id), DELETE USING (auth.uid() = user_id)
(practice_tests has no DELETE policy, which only removes an operation, and
past_questions is SELECT USING (true)). SQL equality against a NULL
auth.uid() is not true, so the check is `auth = some (owner of the row)`. -/

/-- Result of a PostgREST mutation without a returning clause: the new table
contents and the client-observable error (none on success). A filtered
UPDATE or DELETE that matches zero visible rows is not an error. -/
structure MutationResult (α : Type) where
  table : List α
  error : Option String
deriving DecidableEq, Repr

/-- INSERT under WITH CHECK (auth.uid() = user_id): the row is appended only
when the caller is authenticated as the owner written into the row;
otherwise the insert is rejected and the table is unchanged. -/
def rlsInsert (userIdOf : α → Nat) (auth : Option Nat) (row : α)
    (tbl : List α) : Option (List α) :=
  if auth = some (userIdOf row) then some (tbl ++ [row]) else none

/-- SELECT under USING (auth.uid() = user_id): only rows owned by the
authenticated caller are visible. -/
def rlsSelect (userIdOf : α → Nat) (auth : Option Nat) (tbl : List α) :
    List α :=
  tbl.filter (fun r => auth = some (userIdOf r))

/-- DELETE ... eq(id, rowId) under USING (auth.uid() = user_id): rows that
match the id filter but are not visible under the policy are simply not
candidates, so they survive; the call itself never errors. -/
def rlsDelete (idOf userIdOf : α → Nat) (auth : Option Nat) (rowId : Nat)
    (tbl : List α) : MutationResult α :=
  { table := tbl.filter (fun r => ¬(idOf r = rowId ∧ auth = some (userIdOf r)))
    error := none }

/-- UPDATE ... eq(id, rowId) under USING (auth.uid() = user_id): the patch f
is applied exactly to the visible rows matching the id filter; zero matches
is not an error. -/
def rlsUpdate (idOf userIdOf : α → Nat) (auth : Option Nat) (rowId : Nat)
    (f : α → α) (tbl : List α) : MutationResult α :=
  { table := tbl.map (fun r =>
      if idOf r = rowId ∧ auth = some (userIdOf r) then f r else r)
    error := none }

/-! ### Per-entity inserts (client insert calls against the RLS store) -/

/-- supabase.from(resources).insert under the resources INSERT policy. -/
def insertResource (auth : Option Nat) (row : ResourceRow) (db : Db) :
    Option Db :=
  (rlsInsert ResourceRow.user_id auth row db.resources).map
    (fun t => { db with resources := t })

/-- supabase.from(roadmap_items).insert under the roadmap INSERT policy. -/
def insertRoadmapItem (auth : Option Nat) (row : RoadmapItemRow) (db : Db) :
    Option Db :=
  (rlsInsert RoadmapItemRow.user_id auth row db.roadmap_items).map
    (fun t => { db with roadmap_items := t })

/-- supabase.from(applications).insert under the applications INSERT policy. -/
def insertApplication (auth : Option Nat) (row : ApplicationRow) (db : Db) :
    Option Db :=
  (rlsInsert ApplicationRow.user_id auth row db.applications).map
    (fun t => { db with applications := t })

/-- supabase.from(interviews).insert under the interviews INSERT policy. -/
def insertInterview (auth : Option Nat) (row : InterviewRow) (db : Db) :
    Option Db :=
  (rlsInsert InterviewRow.user_id auth row db.interviews).map
    (fun t => { db with interviews := t })

/-- supabase.from(contacts).insert under the contacts INSERT policy. -/
def insertContact (auth : Option Nat) (row : ContactRow) (db : Db) :
    Option Db :=
  (rlsInsert ContactRow.user_id auth row db.contacts).map
    (fun t => { db with contacts := t })

/-- supabase.from(practice_tests).insert under the practice tests INSERT
policy. -/
def insertPracticeTest (auth : Option Nat) (row : PracticeTestRow) (db : Db) :
    Option Db :=
  (rlsInsert PracticeTestRow.user_id auth row db.practice_tests).map
    (fun t => { db with practice_tests := t })

/-! ### Analytics aggregations (Analytics page, fetchAnalytics)

The JS accumulators are plain objects updated as `obj[k] = (obj[k] || 0) + 1`
and read back with Object.entries, which preserves insertion order for
string keys; they are modelled as association lists where the first entry
with a key is updated in place and a fresh key is appended. -/

/-- Read a count out of the accumulator object (0 when the key is absent). -/
def countOf : List (String × Nat) → String → Nat
  | [], _ => 0
  | (k, c) :: rest, key => if k = key then c else countOf rest key

/-- `obj[k] = (obj[k] || 0) + 1`: update the entry for k, or append (k, 1). -/
def addCount : List (String × Nat) → String → List (String × Nat)
  | [], key => [(key, 1)]
  | (k, c) :: rest, key =>
    if k = key then (k, c + 1) :: rest else (k, c) :: addCount rest key

/-- `i.outcome || 'Pending'`: a null (and empty-string) outcome falls in the
Pending bucket, because both are falsy in JS. -/
def bucketOutcome (o : Option String) : String :=
  match o with
  | some s => if s = "" then "Pending" else s
  | none => "Pending"

/-- The interview-outcome histogram of fetchAnalytics: bucket each fetched
outcome and count occurrences per bucket, in first-occurrence order. -/
def outcomeCounts (outcomes : List (Option String)) : List (String × Nat) :=
  outcomes.foldl (fun acc o => addCount acc (bucketOutcome o)) []

/-- One accumulator cell of the resources-by-category pass. -/
structure CategoryAgg where
  total : Nat
  completed : Nat
deriving DecidableEq, Repr

/-- categoryStats update: bump total, and completed when is_completed. -/
def addCategory : List (String × CategoryAgg) → String → Bool →
    List (String × CategoryAgg)
  | [], key, comp => [(key, ⟨1, if comp then 1 else 0⟩)]
  | (k, s) :: rest, key, comp =>
    if k = key then
      (k, ⟨s.total + 1, s.completed + if comp then 1 else 0⟩) :: rest
    else (k, s) :: addCategory rest key comp

/-- The resources-by-category aggregation of fetchAnalytics, over the fetched
(category, is_completed) projection. -/
def resourcesByCategoryAgg (rows : List (String × Bool)) :
    List (String × CategoryAgg) :=
  rows.foldl (fun acc r => addCategory acc r.1 r.2) []

/-- The applications-by-month aggregation of fetchAnalytics; the short month
label extracted by toLocaleDateString is abstracted as a function of the
applied date. -/
def applicationsByMonthAgg (monthOf : Int → String) (dates : List Int) :
    List (String × Nat) :=
  dates.foldl (fun acc d => addCount acc (monthOf d)) []

/-- Mock weekly progress of fetchAnalytics: four fixed week labels paired
with Math.floor(Math.random() * 10) + 1; the stream of Math.random draws is
modelled by rng, reduced to the floor range. -/
def progressOverTime (rng : Nat → Nat) : List (String × Nat) :=
  (List.range 4).map (fun idx => ("W" ++ toString (idx + 1), rng idx % 10 + 1))

/-- The analytics summary assembled by fetchAnalytics. -/
structure AnalyticsData where
  applicationsByMonth : List (String × Nat)
  resourcesByCategory : List (String × CategoryAgg)
  interviewOutcomes : List (String × Nat)
  progressOverTime : List (String × Nat)
deriving DecidableEq, Repr

/-- fetchAnalytics: fetch the caller-owned projections of applications,
resources and interviews, aggregate them, and fill progressOverTime with
random values. -/
def fetchAnalytics (monthOf : Int → String) (auth : Option Nat) (db : Db)
    (rng : Nat → Nat) : AnalyticsData :=
  { applicationsByMonth :=
      applicationsByMonthAgg monthOf
        ((rlsSelect ApplicationRow.user_id auth db.applications).map
          ApplicationRow.applied_date)
    resourcesByCategory :=
      resourcesByCategoryAgg
        ((rlsSelect ResourceRow.user_id auth db.resources).map
          (fun r => (r.category, r.is_completed)))
    interviewOutcomes :=
      outcomeCounts
        ((rlsSelect InterviewRow.user_id auth db.interviews).map
          InterviewRow.outcome)
    progressOverTime := progressOverTime rng }

/-! ### Dashboard stats (Dashboard page, fetchStats) -/

/-- The seven fixed day labels of the weekly-activity chart. -/
def weekDays : List String := ["Mon", "Tue", "Wed", "Thu", "Fri", "Sat", "Sun"]

/-- Weekly activity of fetchStats: each day label paired with
Math.floor(Math.random() * 5); the stream of Math.random draws is modelled
by rng, reduced to the floor range. -/
def weeklyProgress (rng : Nat → Nat) : List (String × Nat) :=
  weekDays.mapIdx (fun idx day => (day, rng idx % 5))

/-- The dashboard summary assembled by fetchStats. -/
structure DashboardStats where
  totalResources : Nat
  completedResources : Nat
  totalApplications : Nat
  upcomingInterviews : Nat
  totalContacts : Nat
  roadmapProgress : Nat
  applicationsByStatus : List (String × Nat)
  weeklyProgress : List (String × Nat)
deriving DecidableEq, Repr

/-- fetchStats: counts over the caller-owned rows, plus the random
weekly-activity filler. roadmapProgress is the rounded completion
percentage (0 when no roadmap items exist). -/
def fetchStats (auth : Option Nat) (db : Db) (now : Int) (rng : Nat → Nat) :
    DashboardStats :=
  let resources := rlsSelect ResourceRow.user_id auth db.resources
  let applications := rlsSelect ApplicationRow.user_id auth db.applications
  let interviews :=
    (rlsSelect InterviewRow.user_id auth db.interviews).filter
      (fun i => now ≤ i.interview_date)
  let contacts := rlsSelect ContactRow.user_id auth db.contacts
  let roadmapItems := rlsSelect RoadmapItemRow.user_id auth db.roadmap_items
  let completedRoadmap :=
    (roadmapItems.filter (fun r => r.status = "completed")).length
  { totalResources := resources.length
    completedResources := (resources.filter (fun r => r.is_completed)).length
    totalApplications := applications.length
    upcomingInterviews := interviews.length
    totalContacts := contacts.length
    roadmapProgress :=
      if roadmapItems.length > 0 then
        round ((completedRoadmap : ℚ) / roadmapItems.length * 100) |>.toNat
      else 0
    applicationsByStatus :=
      applications.foldl (fun acc a => addCount acc a.status) []
    weeklyProgress := weeklyProgress rng }

/-! ### Interviews page: upcoming / past classification -/

/-- interviews.filter(i => isFuture(new Date(i.interview_date))): date-fns
isFuture is a strict greater-than comparison against the current time. -/
def upcomingInterviews (l : List InterviewRow) (now : Int) :
    List InterviewRow :=
  l.filter (fun i => now < i.interview_date)

/-- interviews.filter(i => isPast(new Date(i.interview_date))): date-fns
isPast is a strict less-than comparison against the current time. -/
def pastInterviews (l : List InterviewRow) (now : Int) : List InterviewRow :=
  l.filter (fun i => i.interview_date < now)

/-! ### Roadmap listing order (Roadmap page, fetchItems)

The query orders by week_number ascending (Postgres puts NULLs last on an
ascending sort) and then by the priority column descending. priority is a
TEXT column, so the descending comparison is on the string value. -/

/-- Ascending sort key of an optional week_number, NULLs last. -/
def weekKey (w : Option Nat) : Nat ×ₗ Nat :=
  toLex (match w with
    | none => (1, 0)
    | some n => (0, n))

/-- The row order produced by the fetchItems query: week_number ascending
with NULLs last, and on equal weeks the priority column descending. priority
is TEXT, so descending means the lexicographic byte order of the string is
reversed (a precedes b when the text of b is at most the text of a). -/
def roadmapOrder (a b : RoadmapItemRow) : Prop :=
  weekKey a.week_number < weekKey b.week_number ∨
    (weekKey a.week_number = weekKey b.week_number ∧
      b.priority.data ≤ a.priority.data)

instance : DecidableRel roadmapOrder := fun a b =>
  inferInstanceAs (Decidable (weekKey a.week_number < weekKey b.week_number ∨
    (weekKey a.week_number = weekKey b.week_number ∧
      b.priority.data ≤ a.priority.data)))

instance : IsTotal RoadmapItemRow roadmapOrder := by
  constructor
  intro a b
  rcases lt_trichotomy (weekKey a.week_number) (weekKey b.week_number) with
    h | h | h
  · exact Or.inl (Or.inl h)
  · rcases le_total b.priority.data a.priority.data with h2 | h2
    · exact Or.inl (Or.inr ⟨h, h2⟩)
    · exact Or.inr (Or.inr ⟨h.symm, h2⟩)
  · exact Or.inr (Or.inl h)

instance : IsTrans RoadmapItemRow roadmapOrder := by
  constructor
  rintro a b c (hab | ⟨hab, hab2⟩) (hbc | ⟨hbc, hbc2⟩)
  · exact Or.inl (lt_trans hab hbc)
  · exact Or.inl (hbc ▸ hab)
  · exact Or.inl (hab ▸ hbc)
  · exact Or.inr ⟨hab.trans hbc, le_trans hbc2 hab2⟩

/-- fetchItems: the caller-owned roadmap rows in the order returned by the
store (a stable sort by the query ordering). -/
def fetchItems (auth : Option Nat) (userId : Nat) (db : Db) :
    List RoadmapItemRow :=
  List.insertionSort roadmapOrder
    ((rlsSelect RoadmapItemRow.user_id auth db.roadmap_items).filter
      (fun it => it.user_id = userId))

/-- The priority rank the spec sentence describes: high above medium above
low. Stated from the spec wording, for comparison against roadmapOrder. -/
def priorityRank (p : String) : Nat :=
  if p = "high" then 2 else if p = "medium" then 1 else 0

/-- The ordering the claim asserts for fetchItems: week_number ascending,
then priority descending with high before medium before low. Stated from
the spec wording, for comparison against roadmapOrder. -/
def claimedRoadmapOrder (a b : RoadmapItemRow) : Prop :=
  weekKey a.week_number < weekKey b.week_number ∨
    (weekKey a.week_number = weekKey b.week_number ∧
      priorityRank b.priority ≤ priorityRank a.priority)

instance : DecidableRel claimedRoadmapOrder :=
  fun a b => inferInstanceAs
    (Decidable (weekKey a.week_number < weekKey b.week_number ∨
      (weekKey a.week_number = weekKey b.week_number ∧
        priorityRank b.priority ≤ priorityRank a.priority)))

/-! ### Application delete with the ON DELETE SET NULL cascade

supabase.from(applications).delete().eq(id, appId): the RLS DELETE policy
keeps non-owned rows alive; for each application row actually removed, the
foreign key interviews.application_id ON DELETE SET NULL nulls the
reference on every interview row pointing at it. Other tables are not
touched. The client-observable error is none either way. -/

/-- The ids of the application rows a delete call actually removes: rows
matching the id filter that are also visible under the DELETE policy. -/
def deletedAppIds (auth : Option Nat) (appId : Nat) (db : Db) : List Nat :=
  (db.applications.filter
    (fun a => a.id = appId ∧ auth = some a.user_id)).map ApplicationRow.id

/-- The ON DELETE SET NULL action on one interview row: exactly when the
reference points at a removed application, the row is updated — the
reference is nulled and, because the referential action is an ordinary
UPDATE, the BEFORE UPDATE trigger update_interviews_updated_at fires and
refreshes updated_at to the current instant. Other rows are untouched. -/
def setNullInterview (now : Int) (deletedIds : List Nat) (i : InterviewRow) :
    InterviewRow :=
  match i.application_id with
  | some aid =>
    if aid ∈ deletedIds then
      { i with application_id := none, updated_at := now }
    else i
  | none => i

/-- deleteApplication from the Applications page, together with the store
side of the cascade; now is the server clock the trigger writes. -/
def deleteApplication (auth : Option Nat) (appId : Nat) (db : Db)
    (now : Int) : Db × Option String :=
  ({ db with
      applications :=
        db.applications.filter
          (fun a => ¬(a.id = appId ∧ auth = some a.user_id))
      interviews :=
        db.interviews.map
          (setNullInterview now (deletedAppIds auth appId db)) },
    none)

/-! ### JS number semantics for the completion-ratio computations

The two ratio computations divide JS numbers: division by zero yields NaN
for 0/0 and a signed infinity otherwise, and Math.round passes NaN and the
infinities through. Only the cases these expressions can reach are
modelled. -/

/-- A JS number: finite (as an exact rational), NaN, or a signed infinity. -/
inductive JsNum where
  | num (q : ℚ)
  | nan
  | inf
  | ninf
deriving DecidableEq, Repr

/-- JS division a / b, total on zero denominators. -/
def jsDiv (a b : ℚ) : JsNum :=
  if b = 0 then
    if a = 0 then .nan else if 0 < a then .inf else .ninf
  else .num (a / b)

/-- JS multiplication of a possibly non-finite value by a constant. -/
def jsMulConst (x : JsNum) (c : ℚ) : JsNum :=
  match x with
  | .nan => .nan
  | .inf => if 0 < c then .inf else if c < 0 then .ninf else .nan
  | .ninf => if 0 < c then .ninf else if c < 0 then .inf else .nan
  | .num q => .num (q * c)

/-- Math.round: half-up rounding on finite values, identity on NaN and the
infinities. -/
def jsRound (x : JsNum) : JsNum :=
  match x with
  | .num q => .num ((round q : ℤ) : ℚ)
  | other => other

/-- String rendering of a JS number in a template literal. -/
def jsNumToString (x : JsNum) : String :=
  match x with
  | .num q => toString q
  | .nan => "NaN"
  | .inf => "Infinity"
  | .ninf => "-Infinity"

/-- The per-category percentage of the AI relay:
r.total > 0 ? Math.round((r.completed / r.total) * 100) : 0. -/
def relayPercentage (completed total : Int) : JsNum :=
  if total > 0 then jsRound (jsMulConst (jsDiv completed total) 100)
  else .num 0

/-- The practice-test history score of the Practice page:
Math.round((test.correct_answers / test.total_questions) * 100), with no
guard on total_questions. -/
def practiceScorePct (correct total : Int) : JsNum :=
  jsRound (jsMulConst (jsDiv correct total) 100)

/-! ### The AI-suggestion relay (supabase edge function) -/

/-- One resourcesByCategory element of the relay payload. -/
structure CatStat where
  category : String
  total : Int
  completed : Int
deriving DecidableEq, Repr

/-- One interviewOutcomes element of the relay payload. -/
structure OutcomeStat where
  outcome : String
  count : Int
deriving DecidableEq, Repr

/-- The destructured relay payload; each field is none when the key is
absent from the caller JSON (destructuring an absent key gives undefined,
which every use site guards with truthiness checks). -/
structure SuggestPayload where
  resourcesByCategory : Option (List CatStat)
  interviewOutcomes : Option (List OutcomeStat)
  applicationCount : Option Int
deriving DecidableEq, Repr

/-- JS `s || fallback` on an optional string: absent and empty are both
falsy. -/
def jsOrString (s : Option String) (fallback : String) : String :=
  match s with
  | some v => if v = "" then fallback else v
  | none => fallback

/-- One study-resources line of the context block. -/
def resourceLine (r : CatStat) : String :=
  "- " ++ r.category ++ ": " ++ toString r.completed ++ "/" ++
    toString r.total ++ " completed (" ++
    jsNumToString (relayPercentage r.completed r.total) ++ "%)\n"

/-- One interview-outcomes line of the context block. -/
def outcomeLine (o : OutcomeStat) : String :=
  "- " ++ o.outcome ++ ": " ++ toString o.count ++ " interviews\n"

/-- The natural-language context block the relay builds from the payload:
each section is emitted only when its field is truthy and non-empty, and
the Total Applications line only when applicationCount is truthy (a JS
number is falsy exactly when it is 0 or NaN). -/
def buildContext (p : SuggestPayload) : String :=
  let base := "Based on the user\x27s interview preparation data:\n\n"
  let resourcesBlock :=
    match p.resourcesByCategory with
    | some l =>
      if l.length > 0 then
        "**Study Resources:**\n" ++ String.join (l.map resourceLine) ++ "\n"
      else ""
    | none => ""
  let outcomesBlock :=
    match p.interviewOutcomes with
    | some l =>
      if l.length > 0 then
        "**Interview Outcomes:**\n" ++ String.join (l.map outcomeLine) ++ "\n"
      else ""
    | none => ""
  let applicationsBlock :=
    match p.applicationCount with
    | some n =>
      if n ≠ 0 then "**Total Applications:** " ++ toString n ++ "\n\n" else ""
    | none => ""
  base ++ resourcesBlock ++ outcomesBlock ++ applicationsBlock

/-- The fixed user-message suffix appended after the context block. -/
def userPromptSuffix : String :=
  "Please provide personalized suggestions for my interview preparation based on this data."

/-- Outcome of the upstream completion call: a parsed body on an ok status
(content is the optional chain result.choices?.[0]?.message?.content), or a
non-ok status with its error text. -/
inductive UpstreamResponse where
  | ok (content : Option String)
  | notOk (body : String)
deriving DecidableEq, Repr

/-- Client-observable result of the relay: a 200 suggestions body, or a 500
error body built from the thrown message. -/
inductive RelayResult where
  | success (suggestions : String)
  | failure (error : String)
deriving DecidableEq, Repr

/-- The serve handler of the relay (POST path): missing or empty backend
credential throws before any upstream call; a non-ok upstream response
throws; otherwise the optional-chained content, defaulted when falsy, is
returned. The upstream service is abstracted as a function of the user
message it is sent. -/
def aiSuggestionsHandler (p : SuggestPayload) (apiKey : Option String)
    (upstream : String → UpstreamResponse) : RelayResult :=
  match apiKey with
  | none => .failure "LOVABLE_API_KEY not configured"
  | some key =>
    if key = "" then .failure "LOVABLE_API_KEY not configured"
    else
      match upstream (buildContext p ++ userPromptSuffix) with
      | .notOk _ => .failure "Failed to get AI response"
      | .ok content =>
        .success (jsOrString content "Unable to generate suggestions at this time.")

/-! ## Supporting lemmas -/

/-- Reading a key out of the accumulator after an addCount step: the stored
count grows by one exactly at the added key. -/
theorem countOf_addCount (acc : List (String × Nat)) (key k : String) :
    countOf (addCount acc key) k =
      countOf acc k + if key = k then 1 else 0 := by
  induction acc with
  | nil => by_cases h : key = k <;> simp [addCount, countOf, h]
  | cons hd tl ih =>
    obtain ⟨k1, c⟩ := hd
    by_cases h1 : k1 = key
    · by_cases h2 : k1 = k
      · have hkey : key = k := h1.symm.trans h2
        simp [addCount, countOf, h1, h2, hkey]
      · have hkey : ¬ key = k := fun he => h2 (h1.trans he)
        simp [addCount, countOf, h1, h2, hkey]
    · by_cases h2 : k1 = k
      · have hkey : ¬ key = k := fun he => h1 (h2.trans he.symm)
        have hik : ¬ k = key := fun he => h1 (h2.trans he)
        simp [addCount, countOf, h1, h2, hkey, hik]
      · simp [addCount, countOf, h1, h2, ih]

/-- The histogram accumulator agrees with a plain multiset count of the
bucketed keys, for any starting accumulator. -/
theorem countOf_outcomeCounts_go (l : List (Option String))
    (acc : List (String × Nat)) (k : String) :
    countOf (l.foldl (fun a o => addCount a (bucketOutcome o)) acc) k =
      countOf acc k + (l.map bucketOutcome).count k := by
  induction l generalizing acc with
  | nil => simp
  | cons o rest ih =>
    simp only [List.foldl_cons, List.map_cons]
    rw [ih, countOf_addCount, List.count_cons]
    simp only [beq_iff_eq]
    by_cases h : bucketOutcome o = k <;> simp [h] <;> omega

/-- The interview-outcome histogram counts each bucket exactly as often as
the bucket label occurs among the bucketed outcomes. -/
theorem countOf_outcomeCounts (l : List (Option String)) (k : String) :
    countOf (outcomeCounts l) k = (l.map bucketOutcome).count k := by
  unfold outcomeCounts
  rw [countOf_outcomeCounts_go]
  simp [countOf]

/-! ## Claims -/

/-- C5: the interview-outcome histogram buckets a null outcome as Pending:
on the outcome list [Passed, Passed, Failed, null] the aggregation yields
exactly the counts Passed 2, Failed 1, Pending 1, and in general appending
a null outcome increments the Pending bucket by one. -/
theorem outcome_histogram_null_is_pending :
    outcomeCounts [some "Passed", some "Passed", some "Failed", none] =
      [("Passed", 2), ("Failed", 1), ("Pending", 1)] ∧
    bucketOutcome none = "Pending" ∧
    (∀ outcomes : List (Option String),
      countOf (outcomeCounts (outcomes ++ [none])) "Pending" =
        countOf (outcomeCounts outcomes) "Pending" + 1) := by
  refine ⟨by decide, rfl, fun outcomes => ?_⟩
  rw [countOf_outcomeCounts, countOf_outcomeCounts]
  simp [bucketOutcome]

/-- C2: the two completion-ratio computations disagree at total = 0. The
relay guards the division and yields 0 for every completed value, but the
practice-test score of the Practice page divides unguarded: a row with
total_questions = 0 renders NaN (or Infinity when correct_answers is
positive), a non-numeric value, contradicting the claim for that site. The
last conjunct checks the unguarded formula on an ordinary row. -/
theorem completion_ratio_at_zero_total :
    (∀ completed : Int, relayPercentage completed 0 = .num 0) ∧
    practiceScorePct 0 0 = .nan ∧
    practiceScorePct 3 0 = .inf ∧
    practiceScorePct 3 4 = .num 75 := by
  refine ⟨fun completed => rfl, rfl, by decide, ?_⟩
  show jsRound (jsMulConst (jsDiv 3 4) 100) = JsNum.num 75
  norm_num [jsDiv, jsMulConst, jsRound]

/-- C10: a relay payload carrying applicationCount 0 produces the same
context block, and the same end-to-end handler result, as one with the
field absent: 0 is falsy, so the Total Applications line is omitted in both
cases. -/
theorem application_count_zero_like_absent (r : Option (List CatStat))
    (o : Option (List OutcomeStat)) (apiKey : Option String)
    (upstream : String → UpstreamResponse) :
    buildContext ⟨r, o, some 0⟩ = buildContext ⟨r, o, none⟩ ∧
    aiSuggestionsHandler ⟨r, o, some 0⟩ apiKey upstream =
      aiSuggestionsHandler ⟨r, o, none⟩ apiKey upstream := by
  have hctx : buildContext ⟨r, o, some 0⟩ = buildContext ⟨r, o, none⟩ := by
    simp [buildContext]
  refine ⟨hctx, ?_⟩
  cases apiKey with
  | none => rfl
  | some key =>
    by_cases hk : key = "" <;> simp [aiSuggestionsHandler, hk, hctx]

/-- The payload of the C8 scenario: empty resourcesByCategory, empty
interviewOutcomes, applicationCount 0. -/
def emptyStatsPayload : SuggestPayload := ⟨some [], some [], some 0⟩

/-- A payload whose three fields are all absent from the caller JSON. -/
def absentFieldsPayload : SuggestPayload := ⟨none, none, none⟩

/-- C8: the relay fails with the configuration message when the backend
credential is absent, fails with the upstream message when the backend
responds non-ok, treats a payload with all fields absent exactly like the
empty payload, and on the empty-data scenario returns a non-empty
suggestions string for every upstream content. -/
theorem relay_failure_modes_and_empty_data :
    (∀ (p : SuggestPayload) (upstream : String → UpstreamResponse),
      aiSuggestionsHandler p none upstream =
        .failure "LOVABLE_API_KEY not configured") ∧
    (∀ (p : SuggestPayload) (key body : String), key ≠ "" →
      aiSuggestionsHandler p (some key) (fun _ => .notOk body) =
        .failure "Failed to get AI response") ∧
    (∀ (apiKey : Option String) (upstream : String → UpstreamResponse),
      aiSuggestionsHandler absentFieldsPayload apiKey upstream =
        aiSuggestionsHandler emptyStatsPayload apiKey upstream) ∧
    (∀ (key : String), key ≠ "" → ∀ content : Option String,
      ∃ s, aiSuggestionsHandler emptyStatsPayload (some key)
          (fun _ => .ok content) = .success s ∧ s ≠ "") := by
  have hctx : buildContext absentFieldsPayload =
      buildContext emptyStatsPayload := by
    simp [buildContext, absentFieldsPayload, emptyStatsPayload]
  refine ⟨fun p upstream => rfl, ?_, ?_, ?_⟩
  · intro p key body hk
    simp [aiSuggestionsHandler, hk]
  · intro apiKey upstream
    cases apiKey with
    | none => rfl
    | some key =>
      by_cases hk : key = "" <;> simp [aiSuggestionsHandler, hk, hctx]
  · intro key hk content
    refine ⟨jsOrString content "Unable to generate suggestions at this time.",
      by simp [aiSuggestionsHandler, hk], ?_⟩
    cases content with
    | none => simp [jsOrString]
    | some v =>
      by_cases hv : v = "" <;> simp [jsOrString, hv]

/-- C8 witness: the three failure/tolerance modes and the empty-data
scenario at concrete inputs. -/
theorem relay_failure_modes_and_empty_data_witness :
    aiSuggestionsHandler emptyStatsPayload none (fun _ => .ok (some "tips")) =
      .failure "LOVABLE_API_KEY not configured" ∧
    aiSuggestionsHandler emptyStatsPayload (some "k1")
        (fun _ => .notOk "bad gateway") =
      .failure "Failed to get AI response" ∧
    aiSuggestionsHandler absentFieldsPayload (some "k1")
        (fun _ => .ok (some "tips")) =
      aiSuggestionsHandler emptyStatsPayload (some "k1")
        (fun _ => .ok (some "tips")) ∧
    ∃ s, aiSuggestionsHandler emptyStatsPayload (some "k1")
        (fun _ => .ok (some "Practice DSA daily")) = .success s ∧ s ≠ "" :=
  ⟨relay_failure_modes_and_empty_data.1 emptyStatsPayload _,
    relay_failure_modes_and_empty_data.2.1 emptyStatsPayload "k1"
      "bad gateway" (by decide),
    relay_failure_modes_and_empty_data.2.2.1 (some "k1") _,
    relay_failure_modes_and_empty_data.2.2.2 "k1" (by decide)
      (some "Practice DSA daily")⟩

/-! ### C1: insert ownership -/

/-- Closed form of insertResource: the RLS WITH CHECK test decides it. -/
theorem insertResource_eq (auth : Option Nat) (r : ResourceRow) (db : Db) :
    insertResource auth r db =
      if auth = some r.user_id then
        some { db with resources := db.resources ++ [r] }
      else none := by
  unfold insertResource rlsInsert
  split <;> rfl

/-- Closed form of insertRoadmapItem. -/
theorem insertRoadmapItem_eq (auth : Option Nat) (r : RoadmapItemRow)
    (db : Db) :
    insertRoadmapItem auth r db =
      if auth = some r.user_id then
        some { db with roadmap_items := db.roadmap_items ++ [r] }
      else none := by
  unfold insertRoadmapItem rlsInsert
  split <;> rfl

/-- Closed form of insertApplication. -/
theorem insertApplication_eq (auth : Option Nat) (r : ApplicationRow)
    (db : Db) :
    insertApplication auth r db =
      if auth = some r.user_id then
        some { db with applications := db.applications ++ [r] }
      else none := by
  unfold insertApplication rlsInsert
  split <;> rfl

/-- Closed form of insertInterview. -/
theorem insertInterview_eq (auth : Option Nat) (r : InterviewRow) (db : Db) :
    insertInterview auth r db =
      if auth = some r.user_id then
        some { db with interviews := db.interviews ++ [r] }
      else none := by
  unfold insertInterview rlsInsert
  split <;> rfl

/-- Closed form of insertContact. -/
theorem insertContact_eq (auth : Option Nat) (r : ContactRow) (db : Db) :
    insertContact auth r db =
      if auth = some r.user_id then
        some { db with contacts := db.contacts ++ [r] }
      else none := by
  unfold insertContact rlsInsert
  split <;> rfl

/-- Closed form of insertPracticeTest. -/
theorem insertPracticeTest_eq (auth : Option Nat) (r : PracticeTestRow)
    (db : Db) :
    insertPracticeTest auth r db =
      if auth = some r.user_id then
        some { db with practice_tests := db.practice_tests ++ [r] }
      else none := by
  unfold insertPracticeTest rlsInsert
  split <;> rfl

/-- C1: for each of the six owned entities, a successful insert implies the
caller is authenticated as exactly the user_id written into the persisted
row (which then sits in the table), and an insert whose user_id differs
from the caller identity is rejected by the WITH CHECK policy. -/
theorem insert_owner_equals_caller (auth : Option Nat) (db : Db) :
    ((∀ (r : ResourceRow) (db' : Db), insertResource auth r db = some db' →
        auth = some r.user_id ∧ db'.resources = db.resources ++ [r]) ∧
      ∀ r : ResourceRow, auth ≠ some r.user_id →
        insertResource auth r db = none) ∧
    ((∀ (r : RoadmapItemRow) (db' : Db),
        insertRoadmapItem auth r db = some db' →
        auth = some r.user_id ∧
          db'.roadmap_items = db.roadmap_items ++ [r]) ∧
      ∀ r : RoadmapItemRow, auth ≠ some r.user_id →
        insertRoadmapItem auth r db = none) ∧
    ((∀ (r : ApplicationRow) (db' : Db),
        insertApplication auth r db = some db' →
        auth = some r.user_id ∧
          db'.applications = db.applications ++ [r]) ∧
      ∀ r : ApplicationRow, auth ≠ some r.user_id →
        insertApplication auth r db = none) ∧
    ((∀ (r : InterviewRow) (db' : Db), insertInterview auth r db = some db' →
        auth = some r.user_id ∧ db'.interviews = db.interviews ++ [r]) ∧
      ∀ r : InterviewRow, auth ≠ some r.user_id →
        insertInterview auth r db = none) ∧
    ((∀ (r : ContactRow) (db' : Db), insertContact auth r db = some db' →
        auth = some r.user_id ∧ db'.contacts = db.contacts ++ [r]) ∧
      ∀ r : ContactRow, auth ≠ some r.user_id →
        insertContact auth r db = none) ∧
    ((∀ (r : PracticeTestRow) (db' : Db),
        insertPracticeTest auth r db = some db' →
        auth = some r.user_id ∧
          db'.practice_tests = db.practice_tests ++ [r]) ∧
      ∀ r : PracticeTestRow, auth ≠ some r.user_id →
        insertPracticeTest auth r db = none) := by
  refine ⟨⟨?_, ?_⟩, ⟨?_, ?_⟩, ⟨?_, ?_⟩, ⟨?_, ?_⟩, ⟨?_, ?_⟩, ⟨?_, ?_⟩⟩ <;>
    intro r
  case _ =>
    intro db' h
    rw [insertResource_eq] at h
    split at h
    · exact ⟨‹_›, by cases h; rfl⟩
    · cases h
  case _ =>
    intro h
    rw [insertResource_eq]
    simp [h]
  case _ =>
    intro db' h
    rw [insertRoadmapItem_eq] at h
    split at h
    · exact ⟨‹_›, by cases h; rfl⟩
    · cases h
  case _ =>
    intro h
    rw [insertRoadmapItem_eq]
    simp [h]
  case _ =>
    intro db' h
    rw [insertApplication_eq] at h
    split at h
    · exact ⟨‹_›, by cases h; rfl⟩
    · cases h
  case _ =>
    intro h
    rw [insertApplication_eq]
    simp [h]
  case _ =>
    intro db' h
    rw [insertInterview_eq] at h
    split at h
    · exact ⟨‹_›, by cases h; rfl⟩
    · cases h
  case _ =>
    intro h
    rw [insertInterview_eq]
    simp [h]
  case _ =>
    intro db' h
    rw [insertContact_eq] at h
    split at h
    · exact ⟨‹_›, by cases h; rfl⟩
    · cases h
  case _ =>
    intro h
    rw [insertContact_eq]
    simp [h]
  case _ =>
    intro db' h
    rw [insertPracticeTest_eq] at h
    split at h
    · exact ⟨‹_›, by cases h; rfl⟩
    · cases h
  case _ =>
    intro h
    rw [insertPracticeTest_eq]
    simp [h]

/-- The empty store. -/
def dbEmpty : Db := ⟨[], [], [], [], [], []⟩

/-- A sample resource row owned by user 7, as handleAddResource builds it. -/
def sampleResource : ResourceRow :=
  ⟨1, 7, "Neetcode 150", none, "DSA", "article", none, false⟩

/-- C1 witness: inserting as user 7 a row whose user_id is 7 succeeds and
the caller identity matches; inserting the same row as user 8 is refused. -/
theorem insert_owner_equals_caller_witness :
    ((some 7 : Option Nat) = some sampleResource.user_id ∧
      ({ dbEmpty with
          resources := dbEmpty.resources ++ [sampleResource] } : Db).resources
        = dbEmpty.resources ++ [sampleResource]) ∧
    insertResource (some 8) sampleResource dbEmpty = none :=
  ⟨(insert_owner_equals_caller (some 7) dbEmpty).1.1 sampleResource _ (by rfl),
    (insert_owner_equals_caller (some 8) dbEmpty).1.2 sampleResource
      (by decide)⟩

/-! ### C3: update/delete on rows the caller does not own -/

/-- A filtered DELETE whose id filter never meets a policy-visible row
removes nothing and reports no error. -/
theorem rlsDelete_noop {α : Type} (idOf userIdOf : α → Nat)
    (auth : Option Nat) (rowId : Nat) (tbl : List α)
    (h : ∀ r ∈ tbl, ¬(idOf r = rowId ∧ auth = some (userIdOf r))) :
    rlsDelete idOf userIdOf auth rowId tbl =
      { table := tbl, error := none } := by
  simp only [rlsDelete, MutationResult.mk.injEq, and_true]
  rw [List.filter_eq_self]
  intro r hr
  simp only [decide_eq_true_eq]
  exact h r hr

/-- A filtered UPDATE whose id filter never meets a policy-visible row
patches nothing and reports no error. -/
theorem rlsUpdate_noop {α : Type} (idOf userIdOf : α → Nat)
    (auth : Option Nat) (rowId : Nat) (f : α → α) (tbl : List α)
    (h : ∀ r ∈ tbl, ¬(idOf r = rowId ∧ auth = some (userIdOf r))) :
    rlsUpdate idOf userIdOf auth rowId f tbl =
      { table := tbl, error := none } := by
  simp only [rlsUpdate, MutationResult.mk.injEq, and_true]
  conv_rhs => rw [← List.map_id tbl]
  refine List.map_congr_left ?_
  intro r hr
  rw [if_neg (h r hr)]
  rfl

/-- A resource row owned by user 2, as seen by caller user 1. -/
def foreignResource : ResourceRow :=
  ⟨1, 2, "Top SQL questions", none, "DSA", "article", none, false⟩

/-- A one-row resources table holding only another user owned row. -/
def foreignTable : List ResourceRow := [foreignResource]

/-- C3 counterexample: user 1 deletes row id 1, which exists but belongs to
user 2. The claim says the operation fails; instead the call reports no
error at all (the delete page then shows its success toast) — it is a
silent no-op that leaves the table unchanged. -/
theorem delete_not_owned_reports_no_error :
    foreignResource.id = 1 ∧ foreignResource.user_id ≠ 1 ∧
    rlsDelete ResourceRow.id ResourceRow.user_id (some 1) 1 foreignTable =
      { table := foreignTable, error := none } := by
  refine ⟨rfl, by decide, by decide⟩

/-- C3 amended: an update or delete on a row id with no policy-visible
match is a no-op with no client-observable error, and its result — the
unchanged table together with error none — is identical to the result of
the same call on an id that exists nowhere in the table. -/
theorem update_delete_not_owned_noop {α : Type} (idOf userIdOf : α → Nat)
    (auth : Option Nat) (rowId : Nat) (f : α → α) (tbl : List α)
    (h : ∀ r ∈ tbl, idOf r = rowId → auth ≠ some (userIdOf r)) :
    rlsDelete idOf userIdOf auth rowId tbl =
      { table := tbl, error := none } ∧
    rlsUpdate idOf userIdOf auth rowId f tbl =
      { table := tbl, error := none } ∧
    ∀ missingId : Nat, (∀ r ∈ tbl, idOf r ≠ missingId) →
      rlsDelete idOf userIdOf auth rowId tbl =
        rlsDelete idOf userIdOf auth missingId tbl ∧
      rlsUpdate idOf userIdOf auth rowId f tbl =
        rlsUpdate idOf userIdOf auth missingId f tbl := by
  have hno : ∀ r ∈ tbl, ¬(idOf r = rowId ∧ auth = some (userIdOf r)) :=
    fun r hr hc => h r hr hc.1 hc.2
  have hdel := rlsDelete_noop idOf userIdOf auth rowId tbl hno
  have hupd := rlsUpdate_noop idOf userIdOf auth rowId f tbl hno
  refine ⟨hdel, hupd, fun missingId hmiss => ?_⟩
  have hno2 : ∀ r ∈ tbl, ¬(idOf r = missingId ∧ auth = some (userIdOf r)) :=
    fun r hr hc => hmiss r hr hc.1
  exact ⟨hdel.trans (rlsDelete_noop idOf userIdOf auth missingId tbl hno2).symm,
    hupd.trans (rlsUpdate_noop idOf userIdOf auth missingId f tbl hno2).symm⟩

/-- C3 witness: user 1 updating or deleting the row of user 2 is a no-op
with no error, and coincides with the same call on the absent id 99. -/
theorem update_delete_not_owned_noop_witness :
    rlsDelete ResourceRow.id ResourceRow.user_id (some 1) 1 foreignTable =
      { table := foreignTable, error := none } ∧
    rlsUpdate ResourceRow.id ResourceRow.user_id (some 1) 1 id foreignTable =
      { table := foreignTable, error := none } ∧
    (rlsDelete ResourceRow.id ResourceRow.user_id (some 1) 1 foreignTable =
        rlsDelete ResourceRow.id ResourceRow.user_id (some 1) 99
          foreignTable ∧
      rlsUpdate ResourceRow.id ResourceRow.user_id (some 1) 1 id
          foreignTable =
        rlsUpdate ResourceRow.id ResourceRow.user_id (some 1) 99 id
          foreignTable) := by
  have h := update_delete_not_owned_noop ResourceRow.id ResourceRow.user_id
    (some 1) 1 id foreignTable (by decide)
  exact ⟨h.1, h.2.1, h.2.2 99 (by decide)⟩

/-! ### C4: the ON DELETE SET NULL cascade -/

/-- Every id removed by a delete-by-id call equals the filtered id. -/
theorem mem_deletedAppIds (auth : Option Nat) (appId : Nat) (db : Db) :
    ∀ x ∈ deletedAppIds auth appId db, x = appId := by
  intro x hx
  obtain ⟨a, ha, rfl⟩ := List.mem_map.mp hx
  exact (List.mem_filter.mp ha).2 |> fun hp => (of_decide_eq_true hp).1

/-- When a matching owned application exists, its id is removed. -/
theorem appId_mem_deletedAppIds (auth : Option Nat) (appId : Nat) (db : Db)
    (hOwned : ∃ a ∈ db.applications, a.id = appId ∧ auth = some a.user_id) :
    appId ∈ deletedAppIds auth appId db := by
  obtain ⟨a, ha, haid, hauth⟩ := hOwned
  exact List.mem_map.mpr
    ⟨a, List.mem_filter.mpr ⟨ha, decide_eq_true ⟨haid, hauth⟩⟩, haid⟩

/-- An application row of user 7, company Acme. -/
def sampleApplication : ApplicationRow :=
  ⟨5, 7, "Acme", "Engineer", "Applied", 20250110, none, none, none, none⟩

/-- An interview of user 7 referencing application 5, last updated at 100. -/
def linkedInterview : InterviewRow :=
  ⟨11, 7, some 5, "Acme", "Engineer", 100, "Technical", none, none, none,
    50, 100⟩

/-- An interview of user 7 with no application reference. -/
def unlinkedInterview : InterviewRow :=
  ⟨12, 7, none, "Globex", "Engineer", 200, "Behavioral", none, none, none,
    60, 60⟩

/-- A store with one application and two interviews for user 7. -/
def cascadeDb : Db :=
  ⟨[], [], [sampleApplication], [linkedInterview, unlinkedInterview], [], []⟩

/-- C4 counterexample: user 7 deletes application 5 at instant 999. The
cascade nulls the reference on the linked interview but, because SET NULL
is an UPDATE that fires the update_interviews_updated_at trigger, it also
refreshes that row's updated_at from 100 to 999: the row with only
application_id changed is absent from the resulting table, so the
referencing interview is not left otherwise unchanged. -/
theorem cascade_not_otherwise_unchanged :
    linkedInterview.updated_at = 100 ∧
    (deleteApplication (some 7) 5 cascadeDb 999).1.interviews =
      [{ linkedInterview with application_id := none, updated_at := 999 },
        unlinkedInterview] ∧
    { linkedInterview with application_id := none } ∉
      (deleteApplication (some 7) 5 cascadeDb 999).1.interviews := by
  refine ⟨rfl, by decide, by decide⟩

/-- C4 amended: deleting an application the caller owns reports no error;
every interview row that referenced the deleted id reappears with
application_id nulled and updated_at refreshed to the deletion instant by
the BEFORE UPDATE trigger, all its other columns identical; every interview
row that did not reference it survives unchanged; the number of interview
rows is preserved (none are deleted); and the resources, roadmap, contacts
and practice-test tables are untouched. -/
theorem delete_application_nulls_interview_refs (auth : Option Nat)
    (appId : Nat) (db : Db) (now : Int)
    (hOwned : ∃ a ∈ db.applications, a.id = appId ∧ auth = some a.user_id) :
    (deleteApplication auth appId db now).2 = none ∧
    (deleteApplication auth appId db now).1.interviews.length =
      db.interviews.length ∧
    (∀ i ∈ db.interviews, i.application_id = some appId →
      { i with application_id := none, updated_at := now } ∈
        (deleteApplication auth appId db now).1.interviews) ∧
    (∀ i ∈ db.interviews, i.application_id ≠ some appId →
      i ∈ (deleteApplication auth appId db now).1.interviews) ∧
    (deleteApplication auth appId db now).1.resources = db.resources ∧
    (deleteApplication auth appId db now).1.roadmap_items =
      db.roadmap_items ∧
    (deleteApplication auth appId db now).1.contacts = db.contacts ∧
    (deleteApplication auth appId db now).1.practice_tests =
      db.practice_tests := by
  refine ⟨rfl, ?_, ?_, ?_, rfl, rfl, rfl, rfl⟩
  · simp [deleteApplication]
  · intro i hi heq
    have hmem := appId_mem_deletedAppIds auth appId db hOwned
    refine List.mem_map.mpr ⟨i, hi, ?_⟩
    simp [setNullInterview, heq, hmem]
  · intro i hi hne
    refine List.mem_map.mpr ⟨i, hi, ?_⟩
    unfold setNullInterview
    cases happ : i.application_id with
    | none => rfl
    | some aid =>
      have haid : aid ∉ deletedAppIds auth appId db := by
        intro hx
        exact hne (happ.trans
          (congrArg some (mem_deletedAppIds auth appId db aid hx)))
      simp [haid]

/-- C4 witness: user 7 deletes application 5 at instant 999; the linked
interview comes back with a null reference and updated_at 999, the
unlinked one survives as-is, no interview is deleted, and the other tables
are untouched. -/
theorem delete_application_nulls_interview_refs_witness :
    (deleteApplication (some 7) 5 cascadeDb 999).2 = none ∧
    (deleteApplication (some 7) 5 cascadeDb 999).1.interviews.length =
      cascadeDb.interviews.length ∧
    { linkedInterview with application_id := none, updated_at := 999 } ∈
      (deleteApplication (some 7) 5 cascadeDb 999).1.interviews ∧
    unlinkedInterview ∈
      (deleteApplication (some 7) 5 cascadeDb 999).1.interviews ∧
    (deleteApplication (some 7) 5 cascadeDb 999).1.resources =
      cascadeDb.resources := by
  have h := delete_application_nulls_interview_refs (some 7) 5 cascadeDb 999
    ⟨sampleApplication, by decide, rfl, rfl⟩
  exact ⟨h.1, h.2.1, h.2.2.1 linkedInterview (by decide) rfl,
    h.2.2.2.1 unlinkedInterview (by decide) (by decide), h.2.2.2.2.1⟩

/-! ### C6: upcoming / past classification -/

/-- An interview whose date is exactly the comparison instant. -/
def boundaryInterview : InterviewRow :=
  ⟨21, 7, none, "Acme", "Engineer", 0, "Technical", none, none, none, 0, 0⟩

/-- C6 counterexample: both classifications are strict, so an interview
whose interview_date equals now satisfies interview_date ≤ now yet appears
in neither the upcoming nor the past view — the two views do not partition
the fetched set. -/
theorem interview_at_now_in_neither_view :
    boundaryInterview.interview_date ≤ 0 ∧
    upcomingInterviews [boundaryInterview] 0 = [] ∧
    pastInterviews [boundaryInterview] 0 = [] := by
  refine ⟨by decide, by decide, by decide⟩

/-- C6 amended: upcoming is the strict test now < interview_date and past
is the strict test interview_date < now; the two views are exclusive and
exhaustive for every interview whose date differs from now, while an
interview dated exactly now appears in neither view. -/
theorem upcoming_past_strict_classification (l : List InterviewRow)
    (now : Int) (i : InterviewRow) (hi : i ∈ l) :
    (i ∈ upcomingInterviews l now ↔ now < i.interview_date) ∧
    (i ∈ pastInterviews l now ↔ i.interview_date < now) ∧
    (i.interview_date ≠ now →
      (i ∈ upcomingInterviews l now ↔ i ∉ pastInterviews l now)) ∧
    (i.interview_date = now →
      i ∉ upcomingInterviews l now ∧ i ∉ pastInterviews l now) := by
  refine ⟨?_, ?_, ?_, ?_⟩
  · simp [upcomingInterviews, List.mem_filter, hi]
  · simp [pastInterviews, List.mem_filter, hi]
  · intro hne
    simp only [upcomingInterviews, pastInterviews, List.mem_filter, hi,
      true_and, decide_eq_true_eq]
    omega
  · intro heq
    simp [upcomingInterviews, pastInterviews, List.mem_filter, hi, heq]

/-- C6 witness: the strict characterizations and the boundary behavior at
concrete instants 1 and 0 around the sample interview dated 0. -/
theorem upcoming_past_strict_classification_witness :
    (boundaryInterview ∈ upcomingInterviews [boundaryInterview] 1 ↔
      (1 : Int) < boundaryInterview.interview_date) ∧
    (boundaryInterview ∈ upcomingInterviews [boundaryInterview] 1 ↔
      boundaryInterview ∉ pastInterviews [boundaryInterview] 1) ∧
    (boundaryInterview ∉ upcomingInterviews [boundaryInterview] 0 ∧
      boundaryInterview ∉ pastInterviews [boundaryInterview] 0) := by
  have h1 := upcoming_past_strict_classification [boundaryInterview] 1
    boundaryInterview (by decide)
  have h0 := upcoming_past_strict_classification [boundaryInterview] 0
    boundaryInterview (by decide)
  exact ⟨h1.1, h1.2.2.1 (by decide), h0.2.2.2 rfl⟩

/-! ### C7: roadmap listing order -/

/-- A week-1 roadmap item of user 7 with priority high. -/
def rmHigh : RoadmapItemRow :=
  ⟨31, 7, "Graphs", none, none, "pending", "high", some 1⟩

/-- A week-1 roadmap item of user 7 with priority medium. -/
def rmMedium : RoadmapItemRow :=
  ⟨32, 7, "Trees", none, none, "pending", "medium", some 1⟩

/-- A week-1 roadmap item of user 7 with priority low. -/
def rmLow : RoadmapItemRow :=
  ⟨33, 7, "Heaps", none, none, "pending", "low", some 1⟩

/-- A store holding the two week-1 roadmap items of user 7. -/
def rmDb : Db := ⟨[], [rmHigh, rmMedium], [], [], [], []⟩

/-- C7 counterexample: with equal week_number, the query orders by the TEXT
value of priority descending, and the string medium sorts above the string
high, so fetchItems returns the medium item first — the claimed
high-before-medium order is violated on this two-row store. -/
theorem roadmap_order_puts_medium_before_high :
    fetchItems (some 7) 7 rmDb = [rmMedium, rmHigh] ∧
    ¬ claimedRoadmapOrder rmMedium rmHigh := by
  refine ⟨by decide, by decide⟩

/-- C7 amended: fetchItems returns exactly the caller-owned roadmap rows
(a permutation of the visible filtered table) sorted by week_number
ascending and then by the priority string descending, an order under which
medium precedes low precedes high on equal weeks. -/
theorem fetch_items_sorted_week_then_text_priority (auth : Option Nat)
    (userId : Nat) (db : Db) :
    List.Sorted roadmapOrder (fetchItems auth userId db) ∧
    List.Perm (fetchItems auth userId db)
      ((rlsSelect RoadmapItemRow.user_id auth db.roadmap_items).filter
        (fun it => it.user_id = userId)) ∧
    roadmapOrder rmMedium rmLow ∧ roadmapOrder rmLow rmHigh := by
  exact ⟨List.sorted_insertionSort roadmapOrder _,
    List.perm_insertionSort roadmapOrder _, by decide, by decide⟩

/-! ### C9: the weekly-activity filler -/

/-- C9: the weekly-activity and progress-over-time series are functions of
the random stream alone: two streams produce different series over the same
stored data, and for a fixed stream the series is identical across every
store, caller and instant — no stored user row influences it. -/
theorem weekly_activity_is_random_filler :
    (∃ rng1 rng2 : Nat → Nat, weeklyProgress rng1 ≠ weeklyProgress rng2) ∧
    (∃ rng1 rng2 : Nat → Nat, progressOverTime rng1 ≠ progressOverTime rng2) ∧
    (∀ (auth auth2 : Option Nat) (db db2 : Db) (now now2 : Int)
      (rng : Nat → Nat),
      (fetchStats auth db now rng).weeklyProgress =
        (fetchStats auth2 db2 now2 rng).weeklyProgress) ∧
    (∀ (monthOf monthOf2 : Int → String) (auth auth2 : Option Nat)
      (db db2 : Db) (rng : Nat → Nat),
      (fetchAnalytics monthOf auth db rng).progressOverTime =
        (fetchAnalytics monthOf2 auth2 db2 rng).progressOverTime) := by
  refine ⟨⟨fun _ => 0, fun _ => 1, by decide⟩,
    ⟨fun _ => 0, fun _ => 1, by decide⟩,
    fun auth auth2 db db2 now now2 rng => rfl,
    fun monthOf monthOf2 auth auth2 db db2 rng => rfl⟩

end PrepTrack
